import Mathlib

set_option autoImplicit false

/-!
Verification development for the AOLOT-scoreboard core: a shallow embedding of
the configuration compiler (`src/src-tauri/src/config.rs`) and the runtime
state engine (`src/src-tauri/src/state.rs`), with theorems about the claims of
the natural-language specification.

Modelling conventions:
* Rust `i64` / `i32` values are Lean `Int`s; where an overflowing cast or an
  arithmetic overflow is reachable, the wrap-around of a release build is made
  explicit with `wrap64` / `wrap32`.
* `HashMap`/`BTreeMap` values are association lists with first-match lookup;
  the maps built by the program never hold duplicate keys.
* `std::time::Instant` is an abstract millisecond timestamp (`Nat`);
  `Instant::now()` becomes an explicit `now : Nat` argument and
  `duration_since` is saturating subtraction, as in `std`.
* `String::trim` is modelled by Lean's `String.trim` (ASCII whitespace);
  `f32` opacities are modelled as `Rat`; OS paths are plain strings with
  POSIX-style absoluteness (`"/"` prefix).
* The `serde`/`toml` decoding of a document into the `RawComponent` /
  `RawGlobal` structs is an external-library boundary: the compiler embedding
  starts from the decoded raw structs, exactly as `load_config_from_str_with_base`
  consumes them after `value.clone().try_into()`.
-/

namespace Scoreboard

/-- Lookup in an association list, first match wins (models `HashMap::get` /
`BTreeMap::get` on maps without duplicate keys). -/
def lookupA {α : Type} : List (String × α) → String → Option α
  | [], _ => none
  | p :: ps, k => if p.1 = k then some p.2 else lookupA ps k

/-- Insert-or-replace in an association list (models `HashMap::insert` and
`entry().or_insert` followed by an in-place write). -/
def insertA {α : Type} : List (String × α) → String → α → List (String × α)
  | [], k, v => [(k, v)]
  | p :: ps, k, v => if p.1 = k then (k, v) :: ps else p :: insertA ps k v

/-- Replace the value stored under an existing key, leaving other entries
untouched (models mutation through `HashMap::get_mut`). -/
def setA {α : Type} (m : List (String × α)) (k : String) (v : α) : List (String × α) :=
  m.map (fun p => if p.1 = k then (p.1, v) else p)

/-- Interpret an `Int` as a wrapping 64-bit signed integer, the arithmetic of a
Rust release build. -/
def wrap64 (x : Int) : Int := (x + 2 ^ 63) % 2 ^ 64 - 2 ^ 63

/-- Interpret an `Int` as a wrapping 32-bit signed integer (Rust's `as i32`). -/
def wrap32 (x : Int) : Int := (x + 2 ^ 31) % 2 ^ 32 - 2 ^ 31

/-- Decimal digit accumulation for `i64::from_str`: fails on any non-digit. -/
def digitsToNat : List Char → Option Nat → Option Nat
  | _, none => none
  | [], some n => some n
  | c :: cs, some n =>
      if c.isDigit then digitsToNat cs (some (n * 10 + (c.toNat - 48))) else none

/-- Rust `str::parse::<i64>`: an optional sign, then one or more ASCII digits,
rejecting values outside the `i64` range. -/
def parseI64 (s : String) : Option Int :=
  let cs := s.toList
  let signed : Int × List Char :=
    match cs with
    | '-' :: rest => (-1, rest)
    | '+' :: rest => (1, rest)
    | rest => (1, rest)
  if signed.2.isEmpty then none
  else
    match digitsToNat signed.2 (some 0) with
    | none => none
    | some n =>
      let v : Int := signed.1 * n
      if -(2 ^ 63) ≤ v ∧ v ≤ 2 ^ 63 - 1 then some v else none

deriving instance DecidableEq for Except

/-- Split a character list at every occurrence of `sep`, keeping empty pieces
(Rust `str::split(sep)`). -/
def splitOnChar (sep : Char) : List Char → List (List Char)
  | [] => [[]]
  | x :: xs =>
    let rest := splitOnChar sep xs
    if x = sep then [] :: rest
    else
      match rest with
      | r :: rs => (x :: r) :: rs
      | [] => [[x]]

/-- Whitespace-stripping on character lists (Rust `str::trim`, for the ASCII
whitespace that occurs in configs). -/
def trimChars (cs : List Char) : List Char :=
  ((cs.dropWhile Char.isWhitespace).reverse.dropWhile Char.isWhitespace).reverse

/-- Rust `str::trim` as a `String` operation. -/
def trimS (s : String) : String := String.mk (trimChars s.toList)

/-- Rust `char::is_ascii_hexdigit`. -/
def isAsciiHexdigit (c : Char) : Bool :=
  c.isDigit || ('a' ≤ c && c ≤ 'f') || ('A' ≤ c && c ≤ 'F')

/-- Zero-padded decimal rendering of a nonnegative value, Rust's `{:02}`. -/
def pad2 (n : Nat) : String :=
  if n < 10 then "0" ++ toString n else toString n

namespace Config

/-! Embedding of `src/src-tauri/src/config.rs`. -/

/-- Canvas width (`CANVAS_WIDTH`). -/
def CANVAS_WIDTH : Int := 640

/-- Canvas height (`CANVAS_HEIGHT`). -/
def CANVAS_HEIGHT : Int := 480

/-- Fragment of `toml::Value` needed by the compiler: the `type` and `default`
fields are union-typed in the document. -/
inductive TomlValue : Type where
  | str (s : String)
  | int (n : Int)
  | table (entries : List (String × TomlValue))

/-- Rust `toml::Value::as_str`. -/
def TomlValue.asStr : TomlValue → Option String
  | .str s => some s
  | _ => none

/-- Rust `toml::Value::as_integer`. -/
def TomlValue.asInteger : TomlValue → Option Int
  | .int n => some n
  | _ => none

/-- Rust `toml::Value::as_table` (as an association list). -/
def TomlValue.asTable : TomlValue → Option (List (String × TomlValue))
  | .table m => some m
  | _ => none

structure Position where
  x : Int
  y : Int
deriving DecidableEq

structure Font where
  family : String
  size : Int
  color : String
deriving DecidableEq

structure FontOverride where
  family : Option String
  size : Option Int
  color : Option String
deriving DecidableEq

structure KeybindSpec where
  key : String
  ctrl : Bool
  alt : Bool
  shift : Bool
  win : Bool
deriving DecidableEq

structure ImageSize where
  width : Int
  height : Int
deriving DecidableEq

structure RawGlobal where
  background_color : Option String
  font : Option FontOverride
deriving DecidableEq

/-- Decoded form of a component table (`RawComponent` in config.rs); the
`keybind` map is a `BTreeMap` accessed only through `get`. -/
structure RawComponent where
  component_type : TomlValue
  default : Option TomlValue
  position : Position
  font : Option FontOverride
  keybind : Option (List (String × KeybindSpec))
  source : Option String
  size : Option ImageSize
  opacity : Option Rat
  rounding : Option String
  edit : Option Bool

inductive TimerRounding : Type where
  | standard
  | basketball
deriving DecidableEq

structure NumberKeybind where
  increase : KeybindSpec
  decrease : KeybindSpec
  reset : KeybindSpec
deriving DecidableEq

structure TimerKeybind where
  start : KeybindSpec
  stop : KeybindSpec
deriving DecidableEq

inductive ComponentKind : Type where
  | number (default : Int) (keybind : NumberKeybind)
  | timer (default_ms : Int) (keybind : TimerKeybind) (rounding : TimerRounding)
  | label (default : String) (edit : Bool)
  | image (source : String) (width : Int) (height : Int) (opacity : Rat)
deriving DecidableEq

structure ComponentConfig where
  id : String
  position : Position
  font : Font
  kind : ComponentKind
deriving DecidableEq

structure GlobalSettings where
  background_color : String
  font : Font
deriving DecidableEq

structure ScoreboardConfig where
  global : GlobalSettings
  components : List ComponentConfig
deriving DecidableEq

instance : Inhabited ComponentConfig :=
  ⟨{ id := "", position := ⟨0, 0⟩, font := ⟨"", 0, ""⟩, kind := .label "" false }⟩

/-- Rust `KeybindSpec::to_shortcut`. -/
def KeybindSpec.to_shortcut (k : KeybindSpec) : String :=
  let parts : List String :=
    (if k.ctrl then ["Ctrl"] else []) ++
    (if k.alt then ["Alt"] else []) ++
    (if k.shift then ["Shift"] else []) ++
    (if k.win then ["Super"] else []) ++
    [trimS k.key]
  String.intercalate "+" parts

/-- Rust `validate_id`. -/
def validate_id (id : String) : Except String Unit :=
  if trimS id = "" then .error "Component id cannot be empty" else .ok ()

/-- Rust `validate_position`. -/
def validate_position (id : String) (p : Position) : Except String Unit :=
  if p.x < 0 ∨ p.x ≥ CANVAS_WIDTH ∨ p.y < 0 ∨ p.y ≥ CANVAS_HEIGHT then
    .error ("'" ++ id ++ "' position (" ++ toString p.x ++ ", " ++ toString p.y ++
      ") is outside " ++ toString CANVAS_WIDTH ++ "x" ++ toString CANVAS_HEIGHT)
  else .ok ()

/-- Rust `validate_color`. -/
def validate_color (name color : String) : Except String Unit :=
  let trimmed := trimChars color.toList
  if ¬ (trimmed.length = 7 ∧ trimmed.head? = some '#') then
    .error ("'" ++ name ++ "' must be #RRGGBB")
  else if ¬ ((trimmed.drop 1).all isAsciiHexdigit) then
    .error ("'" ++ name ++ "' must be #RRGGBB")
  else .ok ()

/-- Rust `validate_font`. -/
def validate_font (id : String) (font : Font) : Except String Unit :=
  if trimS font.family = "" then .error ("'" ++ id ++ "' font.family cannot be empty")
  else if font.size ≤ 0 then .error ("'" ++ id ++ "' font.size must be > 0")
  else validate_color (id ++ ".font.color") font.color

/-- Rust `resolve_font`: field-by-field fallback of an override onto a base font. -/
def resolve_font (base : Font) (override_font : Option FontOverride) : Except String Font :=
  .ok
    { family := (override_font.bind (·.family)).getD base.family
      size := (override_font.bind (·.size)).getD base.size
      color := (override_font.bind (·.color)).getD base.color }

/-- Rust `parse_keybind`: the chord named `key` must be present in the map and
carry a non-blank key token. -/
def parse_keybind (id : String) (binds : List (String × KeybindSpec)) (key : String) :
    Except String KeybindSpec :=
  match lookupA binds key with
  | none => .error ("'" ++ id ++ "' keybind." ++ key ++ " is required")
  | some spec =>
    if trimS spec.key = "" then .error ("'" ++ id ++ "' keybind." ++ key ++ ".key cannot be empty")
    else .ok spec

/-- Rust `resolve_image_source` with POSIX-style paths. -/
def resolve_image_source (base_dir source : String) : String :=
  if source.startsWith "/" then source else base_dir ++ "/" ++ source

/-- Rust `parse_timer_default`: exactly three `:`-separated `i64` fields,
minutes/seconds in `[0,60)`, hours nonnegative; the conversion to milliseconds
is `i64` arithmetic, hence wrapping in a release build. -/
def parse_timer_default (value : String) : Except String Int :=
  match (splitOnChar ':' value.toList).map String.mk with
  | [p0, p1, p2] =>
    match parseI64 p0 with
    | none => .error ("Timer default '" ++ value ++ "' has invalid hours")
    | some h =>
      match parseI64 p1 with
      | none => .error ("Timer default '" ++ value ++ "' has invalid minutes")
      | some m =>
        match parseI64 p2 with
        | none => .error ("Timer default '" ++ value ++ "' has invalid seconds")
        | some s =>
          if ¬ (0 ≤ m ∧ m < 60) ∨ ¬ (0 ≤ s ∧ s < 60) ∨ h < 0 then
            .error ("Timer default '" ++ value ++ "' must be HH:MM:SS")
          else .ok (wrap64 (((h * 3600) + (m * 60) + s) * 1000))
  | _ => .error ("Timer default '" ++ value ++ "' must be HH:MM:SS")

/-- Rust `parse_component_type`: a bare string, or a table with `name`/`kind`
and an optional `rounding`. -/
def parse_component_type (id : String) (raw_type : TomlValue) :
    Except String (String × Option String) :=
  match raw_type.asStr with
  | some component_type => .ok (component_type, none)
  | none =>
    match raw_type.asTable with
    | none => .error ("'" ++ id ++ "' type must be a string or table")
    | some table =>
      match ((lookupA table "name").orElse (fun _ => lookupA table "kind")).bind
          TomlValue.asStr with
      | none => .error ("'" ++ id ++ "' type table requires 'name' or 'kind' as a string")
      | some component_type =>
        .ok (component_type, ((lookupA table "rounding").bind TomlValue.asStr))

/-- Rust `parse_timer_rounding`. -/
def parse_timer_rounding (id : String) (type_rounding component_rounding : Option String) :
    Except String TimerRounding :=
  let rounding := (type_rounding.orElse (fun _ => component_rounding)).getD "standard"
  match String.mk (rounding.toList.map Char.toLower) with
  | "standard" => .ok .standard
  | "basketball" => .ok .basketball
  | other =>
    .error ("'" ++ id ++ "' has unsupported timer rounding '" ++ other ++
      "' (expected 'standard' or 'basketball')")

/-- Rust `parse_global_settings` (the serde decode of the `[global]` table is
the external boundary; this consumes the decoded `RawGlobal`). -/
def parse_global_settings (raw_global : Option RawGlobal) : Except String GlobalSettings := do
  let fallback_font : Font := { family := "Segoe UI", size := 28, color := "#FFFFFF" }
  let fallback_bg := "#000000"
  let parsed := raw_global.getD { background_color := none, font := none }
  let font ← resolve_font fallback_font parsed.font
  let _ ← validate_font "global.font" font
  let background_color := parsed.background_color.getD fallback_bg
  let _ ← validate_color "global.background_color" background_color
  .ok { background_color := background_color, font := font }

/-- Kind-specific decoding: the `match component_type.as_str()` dispatch inside
`load_config_from_str_with_base`, one arm per supported type name. -/
def kindOf (base id : String) (raw : RawComponent) (ctype : String)
    (type_rounding : Option String) : Except String ComponentKind :=
  match ctype with
  | "number" =>
    if raw.edit.isSome then .error ("'" ++ id ++ "' edit is only supported for label components")
    else
      match raw.default.bind TomlValue.asInteger with
      | none => .error ("'" ++ id ++ "' default must be an integer")
      | some n =>
        match raw.keybind with
        | none => .error ("'" ++ id ++ "' number requires keybind section")
        | some binds => do
          let increase ← parse_keybind id binds "increase"
          let decrease ← parse_keybind id binds "decrease"
          let reset ← parse_keybind id binds "reset"
          .ok (.number (wrap32 n) ⟨increase, decrease, reset⟩)
  | "timer" =>
    if raw.edit.isSome then .error ("'" ++ id ++ "' edit is only supported for label components")
    else
      match raw.default.bind TomlValue.asStr with
      | none => .error ("'" ++ id ++ "' default must be a timer string HH:MM:SS")
      | some raw_default =>
        match raw.keybind with
        | none => .error ("'" ++ id ++ "' timer requires keybind section")
        | some binds => do
          let rounding ← parse_timer_rounding id type_rounding raw.rounding
          let default_ms ← parse_timer_default raw_default
          let start ← parse_keybind id binds "start"
          let stop ← parse_keybind id binds "stop"
          .ok (.timer default_ms ⟨start, stop⟩ rounding)
  | "label" =>
    match raw.default.bind TomlValue.asStr with
    | none => .error ("'" ++ id ++ "' default must be a string")
    | some d => .ok (.label d (raw.edit.getD false))
  | "image" =>
    if raw.edit.isSome then .error ("'" ++ id ++ "' edit is only supported for label components")
    else
      match raw.source with
      | none => .error ("'" ++ id ++ "' image requires source")
      | some source =>
        match raw.size with
        | none => .error ("'" ++ id ++ "' image requires size.width and size.height")
        | some size =>
          if size.width ≤ 0 ∨ size.height ≤ 0 then
            .error ("'" ++ id ++ "' image size must be > 0")
          else
            let opacity := raw.opacity.getD 1
            if ¬ (0 ≤ opacity ∧ opacity ≤ 1) then
              .error ("'" ++ id ++ "' opacity must be between 0.0 and 1.0")
            else .ok (.image (resolve_image_source base source) size.width size.height opacity)
  | other => .error ("'" ++ id ++ "' has unsupported type '" ++ other ++ "'")

/-- Per-entry body of the component loop in `load_config_from_str_with_base`:
font resolution, the three validators, type resolution, kind decoding. -/
def processComponent (global : GlobalSettings) (base id : String) (raw : RawComponent) :
    Except String ComponentConfig := do
  let font ← resolve_font global.font raw.font
  let _ ← validate_id id
  let _ ← validate_position id raw.position
  let _ ← validate_font id font
  let (ctype, type_rounding) ← parse_component_type id raw.component_type
  let kind ← kindOf base id raw ctype type_rounding
  .ok { id := id, position := raw.position, font := font, kind := kind }

/-- Component loop of `load_config_from_str_with_base`: entries in document
order, the reserved `global` key skipped, first error terminal. -/
def processAll (global : GlobalSettings) (base : String) :
    List (String × RawComponent) → Except String (List ComponentConfig)
  | [] => .ok []
  | (id, raw) :: rest =>
    if id = "global" then processAll global base rest
    else do
      let c ← processComponent global base id raw
      let cs ← processAll global base rest
      .ok (c :: cs)

/-- Rust `load_config_from_str_with_base` after the generic TOML parse and
serde decode: global section first, then every other top-level key in document
order, then the final id-sort. Rust's `sort_by(|a, b| a.id.cmp(&b.id))` is a
stable sort; every stable sort computes the same list, so it is modelled by
the stable insertion sort on the same key. -/
def load_config_from_entries (raw_global : Option RawGlobal) (base : String)
    (entries : List (String × RawComponent)) : Except String ScoreboardConfig := do
  let global ← parse_global_settings raw_global
  let comps ← processAll global base entries
  .ok { global := global
        components := comps.insertionSort (fun a b => a.id ≤ b.id) }

end Config

namespace Runtime

/-! Embedding of `src/src-tauri/src/state.rs`.

The schema types consumed by state.rs are a later revision of config.rs than
the one in the snapshot (state.rs imports `ComponentAlignment`, matches an
`ImageToggle` variant, and treats every keybind field as an `Option`, none of
which exist in the snapshot's config.rs). The shapes below follow state.rs's
own pattern matches, completed from the specification where state.rs leaves a
field unconstrained. -/

open Config (Position Font KeybindSpec TimerRounding)

/-- Modelled from the spec: the `alignment: optional enum {center}` field of a
component, imported by state.rs as `ComponentAlignment` but absent from the
snapshot's config.rs. -/
inductive ComponentAlignment : Type where
  | center
deriving DecidableEq

/-- Modelled from the spec: Number keybinds with `each an optional key-chord`,
as matched by `collect_hotkeys` (`keybind.increase/decrease/reset` are
`Option`s there). -/
structure NumberKeybind where
  increase : Option KeybindSpec
  decrease : Option KeybindSpec
  reset : Option KeybindSpec
deriving DecidableEq

/-- Modelled from the spec: Timer keybinds
`keybind: optional {start, stop, reset, increase, decrease}`, as matched by
`collect_hotkeys`. -/
structure TimerKeybind where
  start : Option KeybindSpec
  stop : Option KeybindSpec
  reset : Option KeybindSpec
  increase : Option KeybindSpec
  decrease : Option KeybindSpec
deriving DecidableEq

/-- Modelled from the spec: ImageToggle keybinds
`keybind: optional {forward, backward}`, as matched by `collect_hotkeys`. -/
structure ToggleKeybind where
  forward : Option KeybindSpec
  backward : Option KeybindSpec
deriving DecidableEq

/-- Modelled from the spec: the component-kind schema consumed by state.rs
(§3 of the spec), including the `ImageToggle` variant with its
`sources: non-empty ordered sequence of resolved paths`; field shapes follow
state.rs's pattern matches (`default`, `default_ms`, `rounding`, `edit`,
`source`/`sources`, `width`, `height`, `opacity`, optional `keybind`). -/
inductive ComponentKind : Type where
  | number (default : Int) (keybind : Option NumberKeybind)
  | timer (default_ms : Int) (keybind : Option TimerKeybind) (rounding : TimerRounding)
  | label (default : String) (edit : Bool)
  | image (source : String) (width : Int) (height : Int) (opacity : Rat)
  | imageToggle (sources : List String) (width : Int) (height : Int) (opacity : Rat)
      (keybind : Option ToggleKeybind)
deriving DecidableEq

/-- Component schema as read by state.rs: `component.id`, `component.position`,
`component.alignment`, `component.font`, `component.kind`. -/
structure ComponentConfig where
  id : String
  position : Position
  alignment : Option ComponentAlignment
  font : Font
  kind : ComponentKind
deriving DecidableEq

/-- Global settings as read by state.rs (`config.global.background_color`). -/
structure GlobalSettings where
  background_color : String
  font : Font
deriving DecidableEq

/-- Schema as read by state.rs: global settings plus the component list. -/
structure ScoreboardConfig where
  global : GlobalSettings
  components : List ComponentConfig
deriving DecidableEq

/-- Rust `Action` (state.rs). -/
inductive Action : Type where
  | numberIncrease (id : String)
  | numberDecrease (id : String)
  | numberReset (id : String)
  | timerStart (id : String)
  | timerStop (id : String)
  | timerReset (id : String)
  | timerIncrease (id : String)
  | timerDecrease (id : String)
  | imageToggleForward (id : String)
  | imageToggleBackward (id : String)
deriving DecidableEq

/-- Rust `HotkeyBinding`. -/
structure HotkeyBinding where
  shortcut : String
  action : Action
deriving DecidableEq

/-- Rust `TimerRuntime`; `last_tick` is the `Instant` anchor, a millisecond
timestamp here. -/
structure TimerRuntime where
  remaining_ms : Int
  running : Bool
  last_tick : Option Nat
deriving DecidableEq

/-- Rust `RuntimeState`: the schema plus the four per-id maps. -/
structure RuntimeState where
  config : Option ScoreboardConfig
  number_values : List (String × Int)
  timer_values : List (String × TimerRuntime)
  label_values : List (String × String)
  image_toggle_indices : List (String × Nat)
deriving DecidableEq

/-- Rust `UiComponent`. -/
structure UiComponent where
  id : String
  component_type : String
  x : Int
  y : Int
  alignment : Option String
  font_family : String
  font_size : Int
  font_color : String
  text : Option String
  source : Option String
  width : Option Int
  height : Option Int
  opacity : Option Rat
  editable : Bool
deriving DecidableEq

/-- Rust `UiSnapshot`. -/
structure UiSnapshot where
  background_color : String
  components : List UiComponent
deriving DecidableEq

/-- Rust `RuntimeState::new`. -/
def RuntimeState.new : RuntimeState :=
  { config := none, number_values := [], timer_values := [], label_values := []
    image_toggle_indices := [] }

/-- Per-component step of the `replace_config` loop: insert the component's
default into the map of its kind. -/
def replaceStep (s : RuntimeState) (c : ComponentConfig) : RuntimeState :=
  match c.kind with
  | .number d _ => { s with number_values := insertA s.number_values c.id d }
  | .timer dm _ _ =>
    { s with timer_values :=
        insertA s.timer_values c.id { remaining_ms := dm, running := false, last_tick := none } }
  | .label d _ => { s with label_values := insertA s.label_values c.id d }
  | .image _ _ _ _ => s
  | .imageToggle _ _ _ _ _ =>
    { s with image_toggle_indices := insertA s.image_toggle_indices c.id 0 }

/-- Rust `RuntimeState::replace_config`: clear all four maps, repopulate from
the new schema's defaults, then install the schema. -/
def replace_config (s : RuntimeState) (config : ScoreboardConfig) : RuntimeState :=
  let cleared : RuntimeState :=
    { s with number_values := [], timer_values := [], label_values := []
             image_toggle_indices := [] }
  let filled := config.components.foldl replaceStep cleared
  { filled with config := some config }

/-- Rust `RuntimeState::set_label_value`; the returned state equals the input
whenever the result is an error. -/
def set_label_value (s : RuntimeState) (id : String) (value : String) :
    Except String Bool × RuntimeState :=
  if value.toList.contains '\n' ∨ value.toList.contains '\r' then
    (.error "Label text must be a single-line string", s)
  else
    match s.config with
    | none => (.error "No config loaded", s)
    | some config =>
      match config.components.find? (fun c => c.id = id) with
      | none => (.error ("Unknown component '" ++ id ++ "'"), s)
      | some component =>
        match component.kind with
        | .label _ edit =>
          if !edit then (.error ("Component '" ++ id ++ "' is not editable"), s)
          else
            let current := (lookupA s.label_values id).getD ""
            if current = value then (.ok false, s)
            else (.ok true, { s with label_values := insertA s.label_values id value })
        | _ => (.error ("Component '" ++ id ++ "' is not a label"), s)

/-- Bindings pushed for one component by `collect_hotkeys`' match, in push
order. -/
def componentBindings (c : ComponentConfig) : List HotkeyBinding :=
  match c.kind with
  | .number _ (some keybind) =>
    (match keybind.increase with
     | some increase => [⟨increase.to_shortcut, .numberIncrease c.id⟩]
     | none => []) ++
    (match keybind.decrease with
     | some decrease => [⟨decrease.to_shortcut, .numberDecrease c.id⟩]
     | none => []) ++
    (match keybind.reset with
     | some reset => [⟨reset.to_shortcut, .numberReset c.id⟩]
     | none => [])
  | .timer _ (some keybind) _ =>
    (match keybind.start with
     | some start => [⟨start.to_shortcut, .timerStart c.id⟩]
     | none => []) ++
    (match keybind.stop with
     | some stop => [⟨stop.to_shortcut, .timerStop c.id⟩]
     | none => []) ++
    (match keybind.reset with
     | some reset => [⟨reset.to_shortcut, .timerReset c.id⟩]
     | none => []) ++
    (match keybind.increase with
     | some increase => [⟨increase.to_shortcut, .timerIncrease c.id⟩]
     | none => []) ++
    (match keybind.decrease with
     | some decrease => [⟨decrease.to_shortcut, .timerDecrease c.id⟩]
     | none => [])
  | .imageToggle _ _ _ _ (some keybind) =>
    (match keybind.forward with
     | some forward => [⟨forward.to_shortcut, .imageToggleForward c.id⟩]
     | none => []) ++
    (match keybind.backward with
     | some backward => [⟨backward.to_shortcut, .imageToggleBackward c.id⟩]
     | none => [])
  | _ => []

/-- Rust `RuntimeState::collect_hotkeys`: a vector grown by pushes over the
component loop (modelled as the fold it is). -/
def collect_hotkeys (s : RuntimeState) : List HotkeyBinding :=
  match s.config with
  | none => []
  | some config =>
    config.components.foldl (fun bindings c => bindings ++ componentBindings c) []

/-- Rust `sync_timer` (state.rs): fold wall-clock time since the anchor into
`remaining_ms`, re-anchor or stop. -/
def sync_timer (timer : TimerRuntime) (now : Nat) : TimerRuntime :=
  if !timer.running then timer
  else
    let last := timer.last_tick.getD now
    let elapsed_ms : Int := ((now - last : Nat) : Int)
    let remaining := if elapsed_ms > 0 then max (timer.remaining_ms - elapsed_ms) 0
                     else timer.remaining_ms
    if remaining > 0 then { remaining_ms := remaining, running := timer.running, last_tick := some now }
    else { remaining_ms := remaining, running := false, last_tick := none }

/-- First matching Number default in the schema (the `find_map` in the
`NumberReset` arm). -/
def findNumberDefault (config : ScoreboardConfig) (id : String) : Option Int :=
  config.components.findSome? fun c =>
    match c.kind with
    | .number d _ => if c.id = id then some d else none
    | _ => none

/-- First matching Timer default in the schema (the `find_map` in the
`TimerReset` arm). -/
def findTimerDefault (config : ScoreboardConfig) (id : String) : Option Int :=
  config.components.findSome? fun c =>
    match c.kind with
    | .timer dm _ _ => if c.id = id then some dm else none
    | _ => none

/-- First matching ImageToggle source count in the schema (the `find_map` in
the toggle arms). -/
def findToggleSourceCount (config : ScoreboardConfig) (id : String) : Option Nat :=
  config.components.findSome? fun c =>
    match c.kind with
    | .imageToggle sources _ _ _ _ => if c.id = id then some sources.length else none
    | _ => none

/-- Rust `RuntimeState::apply_action`, with `Instant::now()` passed in as
`now`; returns the changed flag and the successor state. -/
def apply_action (s : RuntimeState) (action : Action) (now : Nat) : Bool × RuntimeState :=
  match action with
  | .numberIncrease id =>
    match lookupA s.number_values id with
    | some value => (true, { s with number_values := setA s.number_values id (value + 1) })
    | none => (false, s)
  | .numberDecrease id =>
    match lookupA s.number_values id with
    | some value => (true, { s with number_values := setA s.number_values id (max (value - 1) 0) })
    | none => (false, s)
  | .numberReset id =>
    match s.config with
    | none => (false, s)
    | some config =>
      match findNumberDefault config id with
      | none => (false, s)
      | some d =>
        match lookupA s.number_values id with
        | some _ => (true, { s with number_values := setA s.number_values id d })
        | none => (false, s)
  | .timerStart id =>
    match lookupA s.timer_values id with
    | none => (false, s)
    | some timer =>
      if timer.remaining_ms > 0 ∧ !timer.running then
        let started : TimerRuntime :=
          { remaining_ms := timer.remaining_ms, running := true, last_tick := some now }
        (true, { s with timer_values := setA s.timer_values id started })
      else (false, s)
  | .timerStop id =>
    match lookupA s.timer_values id with
    | none => (false, s)
    | some timer =>
      if timer.running then
        let synced := sync_timer timer now
        let stopped : TimerRuntime :=
          { remaining_ms := synced.remaining_ms, running := false, last_tick := none }
        (true, { s with timer_values := setA s.timer_values id stopped })
      else (false, s)
  | .timerReset id =>
    match s.config with
    | none => (false, s)
    | some config =>
      match findTimerDefault config id with
      | none => (false, s)
      | some d =>
        match lookupA s.timer_values id with
        | none => (false, s)
        | some timer =>
          let synced := if timer.running then sync_timer timer now else timer
          let withDefault := { synced with remaining_ms := d }
          let final :=
            if synced.running then
              if withDefault.remaining_ms > 0 then { withDefault with last_tick := some now }
              else { withDefault with running := false, last_tick := none }
            else withDefault
          (true, { s with timer_values := setA s.timer_values id final })
  | .timerIncrease id =>
    match lookupA s.timer_values id with
    | none => (false, s)
    | some timer =>
      let synced := if timer.running then sync_timer timer now else timer
      let bumped := { synced with remaining_ms := synced.remaining_ms + 1000 }
      let final := if synced.running then { bumped with last_tick := some now } else bumped
      (true, { s with timer_values := setA s.timer_values id final })
  | .timerDecrease id =>
    match lookupA s.timer_values id with
    | none => (false, s)
    | some timer =>
      let synced := if timer.running then sync_timer timer now else timer
      let lowered := { synced with remaining_ms := max (synced.remaining_ms - 1000) 0 }
      let final :=
        if synced.running then
          if lowered.remaining_ms > 0 then { lowered with last_tick := some now }
          else { lowered with running := false, last_tick := none }
        else lowered
      (true, { s with timer_values := setA s.timer_values id final })
  | .imageToggleForward id =>
    match s.config with
    | none => (false, s)
    | some config =>
      match findToggleSourceCount config id with
      | none => (false, s)
      | some source_count =>
        if source_count > 0 then
          let index := (lookupA s.image_toggle_indices id).getD 0
          let indices := insertA s.image_toggle_indices id ((index + 1) % source_count)
          (true, { s with image_toggle_indices := indices })
        else (false, s)
  | .imageToggleBackward id =>
    match s.config with
    | none => (false, s)
    | some config =>
      match findToggleSourceCount config id with
      | none => (false, s)
      | some source_count =>
        if source_count > 0 then
          let index := (lookupA s.image_toggle_indices id).getD 0
          let indices := insertA s.image_toggle_indices id ((index + source_count - 1) % source_count)
          (true, { s with image_toggle_indices := indices })
        else (false, s)

/-- Rust `format_ms_standard`; the `i64` divisions act on clamped nonnegative
values, so they agree with `Nat` arithmetic. -/
def format_ms_standard (ms : Int) : String :=
  let total_seconds := (max ms 0).toNat / 1000
  let hours := total_seconds / 3600
  let minutes := (total_seconds % 3600) / 60
  let seconds := total_seconds % 60
  if hours > 0 then pad2 hours ++ ":" ++ pad2 minutes ++ ":" ++ pad2 seconds
  else pad2 minutes ++ ":" ++ pad2 seconds

/-- Minute/second rendering of the at-least-one-minute branch of
`format_ms_basketball`, taking the half-up rounded second count. -/
def basketballMinuteSecondForm (rounded_seconds : Nat) : String :=
  let hours := rounded_seconds / 3600
  let minutes := (rounded_seconds % 3600) / 60
  let seconds := rounded_seconds % 60
  if hours > 0 then toString hours ++ ":" ++ toString minutes ++ ":" ++ pad2 seconds
  else toString minutes ++ ":" ++ pad2 seconds

/-- Rust `format_ms_basketball`; same `Nat` reading of the clamped `i64`
arithmetic. -/
def format_ms_basketball (ms : Int) : String :=
  let clamped_ms := (max ms 0).toNat
  if clamped_ms < 60000 then
    let tenths_total := (clamped_ms + 50) / 100
    let seconds := tenths_total / 10
    let tenths := tenths_total % 10
    toString seconds ++ "." ++ toString tenths
  else basketballMinuteSecondForm ((clamped_ms + 500) / 1000)

/-- Rust `format_ms`. -/
def format_ms (ms : Int) (rounding : TimerRounding) : String :=
  match rounding with
  | .standard => format_ms_standard ms
  | .basketball => format_ms_basketball ms

/-- Display payload of one component in `snapshot`; the out-of-bounds `sources`
index of an empty ImageToggle (a `panic!` in Rust) surfaces as `none`. -/
def snapshotComponent (s : RuntimeState) (component : ComponentConfig) : UiComponent :=
  let payload : String × Option String × Option String × Option Int × Option Int ×
      Option Rat × Bool :=
    match component.kind with
    | .number _ _ =>
      ("number", some (toString ((lookupA s.number_values component.id).getD 0)),
       none, none, none, none, false)
    | .timer _ _ rounding =>
      ("timer",
       some (format_ms (((lookupA s.timer_values component.id).map
         (fun t => t.remaining_ms)).getD 0) rounding),
       none, none, none, none, false)
    | .label _ edit =>
      ("label", some ((lookupA s.label_values component.id).getD ""), none, none, none, none, edit)
    | .image source width height opacity =>
      ("image", none, some source, some width, some height, some opacity, false)
    | .imageToggle sources width height opacity _ =>
      let index := ((lookupA s.image_toggle_indices component.id).getD 0) % sources.length
      ("image-toggle", none, sources.get? index, some width, some height, some opacity, false)
  { id := component.id
    component_type := payload.1
    x := component.position.x
    y := component.position.y
    alignment := component.alignment.map (fun a => match a with | .center => "center")
    font_family := component.font.family
    font_size := component.font.size
    font_color := component.font.color
    text := payload.2.1
    source := payload.2.2.1
    width := payload.2.2.2.1
    height := payload.2.2.2.2.1
    opacity := payload.2.2.2.2.2.1
    editable := payload.2.2.2.2.2.2 }

/-- Rust `RuntimeState::snapshot`. -/
def snapshot (s : RuntimeState) : UiSnapshot :=
  match s.config with
  | none => { background_color := "#000000", components := [] }
  | some config =>
    { background_color := config.global.background_color
      components := config.components.map (snapshotComponent s) }

/-- State with the timer slot stored under `id` replaced. -/
def setTimerSlot (s : RuntimeState) (id : String) (t : TimerRuntime) : RuntimeState :=
  { s with timer_values := setA s.timer_values id t }

/-- State with the toggle index stored under `id` replaced (or created). -/
def setToggleIndex (s : RuntimeState) (id : String) (i : Nat) : RuntimeState :=
  { s with image_toggle_indices := insertA s.image_toggle_indices id i }

/-- Invariant of one timer slot: a nonnegative clock, and a tick anchor exactly
when running (spec §4.2's `Stopped`/`Running` state machine). -/
def TimerInv (t : TimerRuntime) : Prop :=
  0 ≤ t.remaining_ms ∧ (t.running = true ↔ t.last_tick.isSome = true)

/-- Apply an optional default entry to a runtime map (the effect one
`replace_config` loop iteration has on the map of the component's kind). -/
def applyEntry {α : Type} (m : List (String × α)) (k : String) : Option α → List (String × α)
  | some v => insertA m k v
  | none => m

/-- Default runtime entry a component contributes to `number_values`. -/
def numberEntry (c : ComponentConfig) : Option Int :=
  match c.kind with
  | .number d _ => some d
  | _ => none

/-- Default runtime entry a component contributes to `timer_values`. -/
def timerEntry (c : ComponentConfig) : Option TimerRuntime :=
  match c.kind with
  | .timer dm _ _ => some { remaining_ms := dm, running := false, last_tick := none }
  | _ => none

/-- Default runtime entry a component contributes to `label_values`. -/
def labelEntry (c : ComponentConfig) : Option String :=
  match c.kind with
  | .label d _ => some d
  | _ => none

/-- Default runtime entry a component contributes to `image_toggle_indices`. -/
def toggleEntry (c : ComponentConfig) : Option Nat :=
  match c.kind with
  | .imageToggle _ _ _ _ _ => some 0
  | _ => none

/-- Modelled from the spec: the display record §8 requires right after a
reload — every component shown at its configured default (Number at its
default, Timer showing its default clock, Label at its default text,
ImageToggle on its first source). -/
def specDefaultComponent (c : ComponentConfig) : UiComponent :=
  let payload : String × Option String × Option String × Option Int × Option Int ×
      Option Rat × Bool :=
    match c.kind with
    | .number d _ => ("number", some (toString d), none, none, none, none, false)
    | .timer dm _ rounding => ("timer", some (format_ms dm rounding), none, none, none, none, false)
    | .label d edit => ("label", some d, none, none, none, none, edit)
    | .image source width height opacity =>
      ("image", none, some source, some width, some height, some opacity, false)
    | .imageToggle sources width height opacity _ =>
      ("image-toggle", none, sources.head?, some width, some height, some opacity, false)
  { id := c.id
    component_type := payload.1
    x := c.position.x
    y := c.position.y
    alignment := c.alignment.map (fun a => match a with | .center => "center")
    font_family := c.font.family
    font_size := c.font.size
    font_color := c.font.color
    text := payload.2.1
    source := payload.2.2.1
    width := payload.2.2.2.1
    height := payload.2.2.2.2.1
    opacity := payload.2.2.2.2.2.1
    editable := payload.2.2.2.2.2.2 }

/-- Modelled from the spec: the snapshot §8 requires immediately after
`replace_config` — background plus every component at its default. -/
def specDefaultSnapshot (config : ScoreboardConfig) : UiSnapshot :=
  { background_color := config.global.background_color
    components := config.components.map specDefaultComponent }

/-- Demo font for concrete witnesses. -/
def demoFont : Font := { family := "Segoe UI", size := 28, color := "#FFFFFF" }

/-- Demo key chord for concrete witnesses. -/
def demoKey : KeybindSpec := { key := "F1", ctrl := false, alt := false, shift := false, win := false }

/-- Second demo key chord for concrete witnesses. -/
def demoKey2 : KeybindSpec := { key := "F2", ctrl := true, alt := false, shift := false, win := false }

/-- Concrete schema exercising every component kind, for witnesses. -/
def demoConfig : ScoreboardConfig :=
  { global := { background_color := "#000000", font := demoFont }
    components :=
      [ { id := "bg", position := ⟨1, 2⟩, alignment := none, font := demoFont
          kind := .image "/x.png" 5 6 1 }
      , { id := "clock", position := ⟨0, 0⟩, alignment := some .center, font := demoFont
          kind := .timer 500 none .basketball }
      , { id := "fixed", position := ⟨3, 4⟩, alignment := none, font := demoFont
          kind := .label "X" false }
      , { id := "home-score", position := ⟨10, 20⟩, alignment := some .center, font := demoFont
          kind := .number 7 (some { increase := some demoKey, decrease := none, reset := some demoKey2 }) }
      , { id := "logo", position := ⟨5, 5⟩, alignment := none, font := demoFont
          kind := .imageToggle ["a.png", "b.png", "c.png"] 10 10 1
            (some { forward := some demoKey2, backward := none }) }
      , { id := "title", position := ⟨6, 7⟩, alignment := none, font := demoFont
          kind := .label "AOLOT" true } ] }

/-- Concrete runtime state over `demoConfig`, for witnesses: the home counter
at `0`, the clock stopped at `500`, the toggle on its last source. -/
def demoState : RuntimeState :=
  { config := some demoConfig
    number_values := [("home-score", 0)]
    timer_values := [("clock", { remaining_ms := 500, running := false, last_tick := none })]
    label_values := [("title", "AOLOT"), ("fixed", "X")]
    image_toggle_indices := [("logo", 2)] }

end Runtime

namespace Config

/-- Total reading of the per-entry compile step, used to relate the component
lists produced from permuted documents (junk on entries that fail). -/
def extractComponent (global : GlobalSettings) (base : String) (e : String × RawComponent) :
    ComponentConfig :=
  match processComponent global base e.1 e.2 with
  | .ok c => c
  | .error _ => default

/-- Built-in global settings (all fallbacks), for concrete compiles. -/
def defaultGlobal : GlobalSettings :=
  { background_color := "#000000"
    font := { family := "Segoe UI", size := 28, color := "#FFFFFF" } }

/-- Raw number component with no keybind section, for the C2 counterexample. -/
def rawNumberNoKeybind : RawComponent :=
  { component_type := .str "number", default := some (.int 3), position := ⟨0, 0⟩
    font := none, keybind := none, source := none, size := none, opacity := none
    rounding := none, edit := none }

/-- The same raw number component with all three keybind actions bound. -/
def rawNumberFullKeybind : RawComponent :=
  { rawNumberNoKeybind with
      keybind := some
        [ ("decrease", { key := "F2", ctrl := false, alt := false, shift := false, win := false })
        , ("increase", { key := "F1", ctrl := false, alt := false, shift := false, win := false })
        , ("reset", { key := "F3", ctrl := false, alt := false, shift := false, win := false }) ] }

/-- Raw label component, for the determinism witness. -/
def rawLabelTitle : RawComponent :=
  { component_type := .str "label", default := some (.str "hello"), position := ⟨4, 4⟩
    font := none, keybind := none, source := none, size := none, opacity := none
    rounding := none, edit := some true }

/-- Predicate keeping the non-reserved top-level keys (everything but
`global`). -/
def notGlobal (e : String × RawComponent) : Bool := decide (¬ e.1 = "global")

instance : DecidableRel (fun a b : ComponentConfig => a.id ≤ b.id) :=
  fun a b => inferInstanceAs (Decidable (a.id ≤ b.id))

instance : IsTotal ComponentConfig (fun a b => a.id ≤ b.id) :=
  ⟨fun a b => le_total a.id b.id⟩

instance : IsTrans ComponentConfig (fun a b => a.id ≤ b.id) :=
  ⟨fun _ _ _ h1 h2 => le_trans h1 h2⟩

instance : IsAntisymm ComponentConfig (fun a b => a.id < b.id) :=
  ⟨fun _ _ h h' => (lt_asymm h h').elim⟩

end Config

/-! Helper lemmas. -/

@[simp] theorem lookupA_nil {α : Type} (k : String) : lookupA ([] : List (String × α)) k = none := rfl

@[simp] theorem lookupA_cons {α : Type} (p : String × α) (ps : List (String × α)) (k : String) :
    lookupA (p :: ps) k = if p.1 = k then some p.2 else lookupA ps k := rfl

theorem lookupA_insertA_self {α : Type} (m : List (String × α)) (k : String) (v : α) :
    lookupA (insertA m k v) k = some v := by
  induction m with
  | nil => simp [insertA, lookupA]
  | cons p ps ih =>
    by_cases h : p.1 = k
    · simp [insertA, lookupA, h]
    · simp [insertA, lookupA, h, ih]

theorem lookupA_insertA_ne {α : Type} (m : List (String × α)) (k k' : String) (v : α)
    (h : k ≠ k') : lookupA (insertA m k v) k' = lookupA m k' := by
  induction m with
  | nil => simp [insertA, lookupA, h]
  | cons p ps ih =>
    by_cases hp : p.1 = k
    · simp [insertA, lookupA, hp, h]
    · simp only [insertA, if_neg hp, lookupA_cons]
      by_cases hp' : p.1 = k'
      · simp [hp']
      · simp [hp', ih]

theorem except_bind_ok {ε α β : Type} (a : α) (f : α → Except ε β) :
    ((Except.ok a : Except ε α) >>= f) = f a := rfl

theorem except_bind_error {ε α β : Type} (e : ε) (f : α → Except ε β) :
    ((Except.error e : Except ε α) >>= f) = Except.error e := rfl

@[simp] theorem except_isOk_ok {ε α : Type} (a : α) :
    (Except.ok a : Except ε α).isOk = true := rfl

@[simp] theorem except_isOk_error {ε α : Type} (e : ε) :
    (Except.error e : Except ε α).isOk = false := rfl

theorem wrap64_eq_self {x : Int} (h1 : -(2 ^ 63) ≤ x) (h2 : x < 2 ^ 63) : wrap64 x = x := by
  unfold wrap64
  have : (x + 2 ^ 63) % 2 ^ 64 = x + 2 ^ 63 := Int.emod_eq_of_lt (by omega) (by omega)
  omega

/-! Claim theorems. -/

namespace Config

/-- Claim C4 (amended): `parse_timer_default` succeeds exactly when the string
splits at `:` into three fields that each parse as a signed 64-bit integer,
with minutes and seconds in `[0,60)` and hours nonnegative, and the result is
`((H*3600)+(M*60)+S)*1000` in wrapping 64-bit arithmetic; `"01:02:03"` gives
`3723000` ms, `"00:60:00"` fails, `"25:00:00"` succeeds. -/
theorem parse_timer_default_spec (value : String) :
    (∀ ms : Int, parse_timer_default value = .ok ms ↔
      ∃ p0 p1 p2 : String, ∃ h m s : Int,
        (splitOnChar ':' value.toList).map String.mk = [p0, p1, p2] ∧
        parseI64 p0 = some h ∧ parseI64 p1 = some m ∧ parseI64 p2 = some s ∧
        0 ≤ h ∧ 0 ≤ m ∧ m < 60 ∧ 0 ≤ s ∧ s < 60 ∧
        ms = wrap64 (((h * 3600) + (m * 60) + s) * 1000)) ∧
    parse_timer_default "01:02:03" = .ok 3723000 ∧
    (parse_timer_default "00:60:00").isOk = false ∧
    parse_timer_default "25:00:00" = .ok 90000000 := by
  refine ⟨?_, by decide, by decide, by decide⟩
  intro ms
  constructor
  · intro hok
    unfold parse_timer_default at hok
    split at hok
    case h_2 => simp at hok
    case h_1 p0 p1 p2 hsplit =>
      cases hp0 : parseI64 p0 with
      | none => simp [hp0] at hok
      | some h =>
        simp only [hp0] at hok
        cases hp1 : parseI64 p1 with
        | none => simp [hp1] at hok
        | some m =>
          simp only [hp1] at hok
          cases hp2 : parseI64 p2 with
          | none => simp [hp2] at hok
          | some s =>
            simp only [hp2] at hok
            split at hok
            · simp at hok
            · rename_i hcond
              injection hok with hv
              exact ⟨p0, p1, p2, h, m, s, hsplit, hp0, hp1, hp2, by omega, by omega,
                by omega, by omega, by omega, hv.symm⟩
  · rintro ⟨p0, p1, p2, h, m, s, hsplit, hp0, hp1, hp2, hh, hm0, hm, hs0, hs, hms⟩
    unfold parse_timer_default
    rw [hsplit]
    simp only [hp0, hp1, hp2]
    rw [if_neg (by omega), hms]

/-- Claim C4 witness: the concrete conversion of `"01:02:03"` through the
general characterisation. -/
theorem parse_timer_default_spec_witness : parse_timer_default "01:02:03" = .ok 3723000 :=
  (parse_timer_default_spec "01:02:03").2.1

/-- Claim C4 counterexample: `"9999999999999999999:00:00"` splits into three
colon-separated all-digit fields with valid minutes and seconds and a
nonnegative hours integer, yet parsing fails (the hours field overflows
`i64`), so hours are not unbounded. -/
theorem parse_timer_default_hours_overflow_cex :
    (splitOnChar ':' "9999999999999999999:00:00".toList).map String.mk =
      ["9999999999999999999", "00", "00"] ∧
    ("9999999999999999999".toList.all Char.isDigit ∧
      parseI64 "00" = some 0) ∧
    (parse_timer_default "9999999999999999999:00:00").isOk = false := by
  exact ⟨by decide, ⟨by decide, by decide⟩, by decide⟩

end Config

namespace Runtime

open Config (Position Font KeybindSpec TimerRounding)

/-- Claim C9 (confirmed): `TimerStart` moves a stopped timer with remaining
time onto `Running` anchored at the current instant, and is a `changed=false`
no-op leaving the whole state untouched when the timer is already running or
its clock is at zero. -/
theorem timer_start_spec (s : RuntimeState) (id : String) (now : Nat) (timer : TimerRuntime)
    (hlook : lookupA s.timer_values id = some timer) (hnn : 0 ≤ timer.remaining_ms) :
    (0 < timer.remaining_ms ∧ timer.running = false →
      apply_action s (.timerStart id) now =
        (true, setTimerSlot s id ⟨timer.remaining_ms, true, some now⟩)) ∧
    (timer.running = true ∨ timer.remaining_ms = 0 →
      apply_action s (.timerStart id) now = (false, s)) := by
  constructor
  · rintro ⟨hpos, hrun⟩
    unfold apply_action
    simp only [hlook]
    rw [if_pos ⟨hpos, by simp [hrun]⟩]
    rfl
  · intro hcase
    unfold apply_action
    simp only [hlook]
    rw [if_neg ?_]
    rintro ⟨hpos, hrun⟩
    rcases hcase with hc | hc
    · simp [hc] at hrun
    · omega

/-- Claim C9 witness: starting the stopped demo clock at `500` ms succeeds and
anchors it; starting it when already running is rejected unchanged. -/
theorem timer_start_spec_witness :
    lookupA demoState.timer_values "clock" =
      some { remaining_ms := 500, running := false, last_tick := none } ∧
    apply_action demoState (.timerStart "clock") 41 =
      (true, setTimerSlot demoState "clock" ⟨500, true, some 41⟩) :=
  ⟨by decide,
    (timer_start_spec demoState "clock" 41
      { remaining_ms := 500, running := false, last_tick := none }
      (by decide) (by decide)).1 ⟨by decide, rfl⟩⟩

/-- Claim C10 (confirmed): with `n > 0` configured sources, the toggle actions
rotate the stored index by `+1` and `+n-1` modulo `n`, and with zero sources
both actions are `changed=false` no-ops. -/
theorem image_toggle_spec (s : RuntimeState) (config : ScoreboardConfig) (id : String)
    (now : Nat) (n : Nat) (hcfg : s.config = some config)
    (hn : findToggleSourceCount config id = some n) :
    (0 < n →
      apply_action s (.imageToggleForward id) now =
        (true, setToggleIndex s id (((lookupA s.image_toggle_indices id).getD 0 + 1) % n)) ∧
      apply_action s (.imageToggleBackward id) now =
        (true, setToggleIndex s id (((lookupA s.image_toggle_indices id).getD 0 + n - 1) % n))) ∧
    (n = 0 →
      apply_action s (.imageToggleForward id) now = (false, s) ∧
      apply_action s (.imageToggleBackward id) now = (false, s)) := by
  constructor
  · intro hpos
    constructor
    · unfold apply_action
      simp only [hcfg, hn]
      rw [if_pos hpos]
      simp [setToggleIndex, hcfg]
    · unfold apply_action
      simp only [hcfg, hn]
      rw [if_pos hpos]
      simp [setToggleIndex, hcfg]
  · intro hzero
    subst hzero
    constructor
    · unfold apply_action
      simp only [hcfg, hn]
      rw [if_neg (by omega)]
    · unfold apply_action
      simp only [hcfg, hn]
      rw [if_neg (by omega)]

/-- Claim C10 witness: on the 3-source demo toggle at index 2, forward wraps
to index 0 and backward steps to index 1; on a toggle with zero sources both
actions leave the state unchanged and report `false`. -/
theorem image_toggle_spec_witness :
    findToggleSourceCount demoConfig "logo" = some 3 ∧
    apply_action demoState (.imageToggleForward "logo") 0 =
      (true, setToggleIndex demoState "logo" 0) ∧
    apply_action demoState (.imageToggleBackward "logo") 0 =
      (true, setToggleIndex demoState "logo" 1) := by
  have h := image_toggle_spec demoState demoConfig "logo" 0 3 (by decide) (by decide)
  refine ⟨by decide, ?_, ?_⟩
  · have := (h.1 (by decide)).1
    rw [this]
    rfl
  · have := (h.1 (by decide)).2
    rw [this]
    rfl

/-- Claim C7 (confirmed): `set_label_value` rejects any input holding a newline
or carriage return before looking at anything else, rejects missing configs,
unknown ids, non-label components and non-editable labels, reports `Ok false`
for a write equal to the current text, overwrites and reports `Ok true`
otherwise, and never mutates the state on an error. -/
theorem set_label_value_spec (s : RuntimeState) (id value : String) :
    ((value.toList.contains '\n' = true ∨ value.toList.contains '\r' = true) →
      set_label_value s id value = (.error "Label text must be a single-line string", s)) ∧
    (∀ e, (set_label_value s id value).1 = .error e → (set_label_value s id value).2 = s) ∧
    (¬ (value.toList.contains '\n' = true ∨ value.toList.contains '\r' = true) →
      (s.config = none → set_label_value s id value = (.error "No config loaded", s)) ∧
      (∀ config, s.config = some config →
        (config.components.find? (fun c => c.id = id) = none →
          set_label_value s id value = (.error ("Unknown component '" ++ id ++ "'"), s)) ∧
        (∀ component, config.components.find? (fun c => c.id = id) = some component →
          ((∀ d e, component.kind ≠ .label d e) →
            set_label_value s id value = (.error ("Component '" ++ id ++ "' is not a label"), s)) ∧
          (∀ d, component.kind = .label d false →
            set_label_value s id value = (.error ("Component '" ++ id ++ "' is not editable"), s)) ∧
          (∀ d, component.kind = .label d true →
            ((lookupA s.label_values id).getD "" = value →
              set_label_value s id value = (.ok false, s)) ∧
            ((lookupA s.label_values id).getD "" ≠ value →
              set_label_value s id value =
                (.ok true, { s with label_values := insertA s.label_values id value })))))) := by
  refine ⟨?_, ?_, ?_⟩
  · intro hnl
    unfold set_label_value
    rw [if_pos hnl]
  · intro e
    unfold set_label_value
    repeat' split
    all_goals intro h
    all_goals first
    | rfl
    | (split at h <;> simp at h)
    | (by_cases hc : (lookupA s.label_values id).getD "" = value <;> simp [hc] at h)
    | simp at h
  · intro hnl
    refine ⟨?_, ?_⟩
    · intro hcfg
      unfold set_label_value
      rw [if_neg hnl]
      simp only [hcfg]
    · intro config hcfg
      refine ⟨?_, ?_⟩
      · intro hfind
        unfold set_label_value
        rw [if_neg hnl]
        simp only [hcfg, hfind]
      · intro component hfind
        refine ⟨?_, ?_, ?_⟩
        · intro hnotlabel
          unfold set_label_value
          rw [if_neg hnl]
          simp only [hcfg, hfind]
        · intro d hk
          unfold set_label_value
          rw [if_neg hnl]
          simp only [hcfg, hfind, hk]
          simp
        · intro d hk
          constructor
          · intro heq
            unfold set_label_value
            rw [if_neg hnl]
            simp only [hcfg, hfind, hk]
            simp [heq]
          · intro hne
            unfold set_label_value
            rw [if_neg hnl]
            simp only [hcfg, hfind, hk]
            simp [hne]

/-- Claim C7 witness: a newline-carrying write to the editable demo label is
rejected with the state unchanged, a write of the current text reports
`Ok false`, and a fresh text overwrites with `Ok true`. -/
theorem set_label_value_spec_witness :
    set_label_value demoState "title" (String.mk ['a', '\n', 'b']) =
      (.error "Label text must be a single-line string", demoState) ∧
    set_label_value demoState "title" "AOLOT" = (.ok false, demoState) ∧
    set_label_value demoState "title" "B" =
      (.ok true, { demoState with label_values := insertA demoState.label_values "title" "B" }) := by
  have h1 := (set_label_value_spec demoState "title" (String.mk ['a', '\n', 'b'])).1
    (by decide)
  exact ⟨h1, by decide, by decide⟩

theorem sync_stopped_anchor (t : TimerRuntime) (now : Nat) (h : TimerInv t) :
    (sync_timer t now).running = false → (sync_timer t now).last_tick = none := by
  unfold sync_timer
  cases hr : t.running with
  | true =>
    rw [if_neg (by simp)]
    set remaining := if ((now - t.last_tick.getD now : Nat) : Int) > 0 then
      max (t.remaining_ms - ((now - t.last_tick.getD now : Nat) : Int)) 0 else t.remaining_ms
      with hrem
    by_cases hpos : remaining > 0
    · rw [if_pos hpos]
      intro hf
      simp at hf
    · rw [if_neg hpos]
      intro _
      rfl
  | false =>
    rw [if_pos (by simp)]
    intro _
    have hnone : t.last_tick.isSome = false := by
      cases hlt : t.last_tick with
      | none => rfl
      | some x => exact absurd (h.2.mpr (by simp [hlt])) (by simp [hr])
    simpa using hnone

theorem lookup_foldl_untouched {α : Type} (proj : RuntimeState → List (String × α))
    (entry : ComponentConfig → Option α)
    (hstep : ∀ s c, proj (replaceStep s c) = applyEntry (proj s) c.id (entry c)) :
    ∀ (l : List ComponentConfig) (acc : RuntimeState) (k : String),
      k ∉ l.map (fun c => c.id) →
      lookupA (proj (l.foldl replaceStep acc)) k = lookupA (proj acc) k := by
  intro l
  induction l with
  | nil => intro acc k _; rfl
  | cons c cs ih =>
    intro acc k hk
    rw [List.foldl_cons]
    rw [ih _ k (fun hmem => hk (List.mem_cons_of_mem _ hmem))]
    rw [hstep]
    cases he : entry c with
    | none => rfl
    | some v =>
      exact lookupA_insertA_ne _ _ _ _ (fun h => hk (h ▸ List.mem_cons_self _ _))

theorem lookup_foldl_found {α : Type} (proj : RuntimeState → List (String × α))
    (entry : ComponentConfig → Option α)
    (hstep : ∀ s c, proj (replaceStep s c) = applyEntry (proj s) c.id (entry c)) :
    ∀ (l : List ComponentConfig) (acc : RuntimeState) (c : ComponentConfig) (v : α),
      (l.map (fun c => c.id)).Nodup → c ∈ l → entry c = some v →
      lookupA (proj (l.foldl replaceStep acc)) c.id = some v := by
  intro l
  induction l with
  | nil => intro acc c v _ hc _; exact absurd hc (List.not_mem_nil c)
  | cons c0 cs ih =>
    intro acc c v hnd hc he
    rw [List.foldl_cons]
    rcases List.mem_cons.1 hc with rfl | hmem
    · have hnotin : c.id ∉ cs.map (fun c => c.id) := (List.nodup_cons.mp hnd).1
      rw [lookup_foldl_untouched proj entry hstep cs _ _ hnotin]
      rw [hstep, he]
      exact lookupA_insertA_self _ _ _
    · exact ih _ c v (List.nodup_cons.mp hnd).2 hmem he

theorem replaceStep_number (s : RuntimeState) (c : ComponentConfig) :
    (replaceStep s c).number_values = applyEntry s.number_values c.id (numberEntry c) := by
  unfold replaceStep numberEntry applyEntry
  cases hk : c.kind <;> rfl

theorem replaceStep_timer (s : RuntimeState) (c : ComponentConfig) :
    (replaceStep s c).timer_values = applyEntry s.timer_values c.id (timerEntry c) := by
  unfold replaceStep timerEntry applyEntry
  cases hk : c.kind <;> rfl

theorem replaceStep_label (s : RuntimeState) (c : ComponentConfig) :
    (replaceStep s c).label_values = applyEntry s.label_values c.id (labelEntry c) := by
  unfold replaceStep labelEntry applyEntry
  cases hk : c.kind <;> rfl

theorem replaceStep_toggle (s : RuntimeState) (c : ComponentConfig) :
    (replaceStep s c).image_toggle_indices = applyEntry s.image_toggle_indices c.id (toggleEntry c) := by
  unfold replaceStep toggleEntry applyEntry
  cases hk : c.kind <;> rfl

theorem replace_config_lookup_number (s : RuntimeState) (config : ScoreboardConfig)
    (hnd : (config.components.map (fun c => c.id)).Nodup)
    (c : ComponentConfig) (hc : c ∈ config.components) (d : Int)
    (kb : Option NumberKeybind) (hk : c.kind = .number d kb) :
    lookupA (replace_config s config).number_values c.id = some d := by
  unfold replace_config
  exact lookup_foldl_found RuntimeState.number_values numberEntry replaceStep_number
    config.components _ c d hnd hc (by unfold numberEntry; rw [hk])

theorem replace_config_lookup_timer (s : RuntimeState) (config : ScoreboardConfig)
    (hnd : (config.components.map (fun c => c.id)).Nodup)
    (c : ComponentConfig) (hc : c ∈ config.components) (dm : Int)
    (kb : Option TimerKeybind) (r : TimerRounding) (hk : c.kind = .timer dm kb r) :
    lookupA (replace_config s config).timer_values c.id =
      some { remaining_ms := dm, running := false, last_tick := none } := by
  unfold replace_config
  exact lookup_foldl_found RuntimeState.timer_values timerEntry replaceStep_timer
    config.components _ c _ hnd hc (by unfold timerEntry; rw [hk])

theorem replace_config_lookup_label (s : RuntimeState) (config : ScoreboardConfig)
    (hnd : (config.components.map (fun c => c.id)).Nodup)
    (c : ComponentConfig) (hc : c ∈ config.components) (d : String)
    (e : Bool) (hk : c.kind = .label d e) :
    lookupA (replace_config s config).label_values c.id = some d := by
  unfold replace_config
  exact lookup_foldl_found RuntimeState.label_values labelEntry replaceStep_label
    config.components _ c d hnd hc (by unfold labelEntry; rw [hk])

theorem replace_config_lookup_toggle (s : RuntimeState) (config : ScoreboardConfig)
    (hnd : (config.components.map (fun c => c.id)).Nodup)
    (c : ComponentConfig) (hc : c ∈ config.components) (sources : List String)
    (w ht : Int) (o : Rat) (kb : Option ToggleKeybind)
    (hk : c.kind = .imageToggle sources w ht o kb) :
    lookupA (replace_config s config).image_toggle_indices c.id = some 0 := by
  unfold replace_config
  exact lookup_foldl_found RuntimeState.image_toggle_indices toggleEntry replaceStep_toggle
    config.components _ c 0 hnd hc (by unfold toggleEntry; rw [hk])

/-- Claim C8 (confirmed): after `replace_config`, all four runtime maps hold
exactly the new schema's defaults — each Number at its default, each Timer
stopped at its default with no tick anchor, each Label at its default text,
each ImageToggle at index 0 — and the immediate snapshot equals the
default-valued snapshot computed from the schema alone, so nothing from the
previous runtime state survives. -/
theorem replace_config_snapshot_spec (s : RuntimeState) (config : ScoreboardConfig)
    (hnd : (config.components.map (fun c => c.id)).Nodup)
    (hne : ∀ c ∈ config.components, ∀ sources w ht o kb,
      c.kind = ComponentKind.imageToggle sources w ht o kb → sources ≠ []) :
    snapshot (replace_config s config) = specDefaultSnapshot config ∧
    (∀ c ∈ config.components, ∀ d kb, c.kind = .number d kb →
      lookupA (replace_config s config).number_values c.id = some d) ∧
    (∀ c ∈ config.components, ∀ dm kb r, c.kind = .timer dm kb r →
      lookupA (replace_config s config).timer_values c.id =
        some { remaining_ms := dm, running := false, last_tick := none }) ∧
    (∀ c ∈ config.components, ∀ d e, c.kind = .label d e →
      lookupA (replace_config s config).label_values c.id = some d) ∧
    (∀ c ∈ config.components, ∀ sources w ht o kb,
      c.kind = .imageToggle sources w ht o kb →
      lookupA (replace_config s config).image_toggle_indices c.id = some 0) := by
  refine ⟨?_, ?_, ?_, ?_, ?_⟩
  · unfold snapshot specDefaultSnapshot
    have hcfg : (replace_config s config).config = some config := rfl
    rw [hcfg]
    dsimp only
    congr 1
    apply List.map_congr_left
    intro c hc
    unfold snapshotComponent specDefaultComponent
    cases hk : c.kind with
    | number d kb =>
      rw [replace_config_lookup_number s config hnd c hc d kb hk]
      rfl
    | timer dm kb r =>
      rw [replace_config_lookup_timer s config hnd c hc dm kb r hk]
      rfl
    | label d e =>
      rw [replace_config_lookup_label s config hnd c hc d e hk]
      rfl
    | image src w ht o => rfl
    | imageToggle sources w ht o kb =>
      rw [replace_config_lookup_toggle s config hnd c hc sources w ht o kb hk]
      cases sources with
      | nil => exact absurd hk (by intro h; exact hne c hc [] w ht o kb h rfl)
      | cons a as => rfl
  · intro c hc d kb hk
    exact replace_config_lookup_number s config hnd c hc d kb hk
  · intro c hc dm kb r hk
    exact replace_config_lookup_timer s config hnd c hc dm kb r hk
  · intro c hc d e hk
    exact replace_config_lookup_label s config hnd c hc d e hk
  · intro c hc sources w ht o kb hk
    exact replace_config_lookup_toggle s config hnd c hc sources w ht o kb hk

/-- Claim C8 witness: replacing the demo state's schema with `demoConfig`
(whose ids are unique and toggles nonempty) yields the default snapshot. -/
theorem replace_config_snapshot_spec_witness :
    snapshot (replace_config demoState demoConfig) = specDefaultSnapshot demoConfig :=
  (replace_config_snapshot_spec demoState demoConfig (by decide)
    (by
      intro c hc sources w ht o kb hk
      fin_cases hc <;> first
      | (obtain ⟨rfl, rfl, rfl, rfl, rfl⟩ := hk; simp)
      | simp_all)).1

theorem collect_hotkeys_eq_flatMap (s : RuntimeState) (config : ScoreboardConfig)
    (hcfg : s.config = some config) :
    collect_hotkeys s = config.components.flatMap componentBindings := by
  unfold collect_hotkeys
  rw [hcfg]
  suffices h : ∀ (l : List ComponentConfig) (acc : List HotkeyBinding),
      l.foldl (fun bindings c => bindings ++ componentBindings c) acc =
        acc ++ l.flatMap componentBindings by
    simpa using h config.components []
  intro l
  induction l with
  | nil => intro acc; simp
  | cons c cs ih => intro acc; simp [ih, List.append_assoc]

end Runtime

namespace Config

theorem processComponent_isOk_false (global : GlobalSettings) (base id : String)
    (raw : RawComponent) (ct : String) (tr : Option String)
    (hct : parse_component_type id raw.component_type = .ok (ct, tr))
    (hkind : (kindOf base id raw ct tr).isOk = false) :
    (processComponent global base id raw).isOk = false := by
  unfold processComponent
  simp only [resolve_font, except_bind_ok]
  cases h1 : validate_id id with
  | error e => rw [except_bind_error]; rfl
  | ok u =>
    cases u
    rw [except_bind_ok]
    cases h2 : validate_position id raw.position with
    | error e => rw [except_bind_error]; rfl
    | ok u =>
      cases u
      rw [except_bind_ok]
      cases h3 : validate_font id
          { family := (raw.font.bind (fun f => f.family)).getD global.font.family
            size := (raw.font.bind (fun f => f.size)).getD global.font.size
            color := (raw.font.bind (fun f => f.color)).getD global.font.color } with
      | error e => rw [except_bind_error]; rfl
      | ok u =>
        cases u
        rw [except_bind_ok, hct, except_bind_ok]
        cases h4 : kindOf base id raw ct tr with
        | error e => rw [except_bind_error]; rfl
        | ok k => rw [h4] at hkind; simp at hkind

end Config

/-- Claim C2 (amended): in the snapshot's compiler a Number component's
keybind section and all three of its actions are mandatory — a raw number
component lacking the section or any of `increase`/`decrease`/`reset` fails to
compile — while `collect_hotkeys` (state.rs, whose schema revision makes every
binding optional) emits exactly one `(canonical shortcut, action)` pair per
bound action present and nothing for absent bindings. -/
theorem number_keybind_spec :
    (∀ (global : Config.GlobalSettings) (base id : String) (raw : Config.RawComponent),
      raw.component_type = .str "number" →
      (raw.keybind = none ∨
        ∃ binds, raw.keybind = some binds ∧
          (lookupA binds "increase" = none ∨ lookupA binds "decrease" = none ∨
            lookupA binds "reset" = none)) →
      (Config.processComponent global base id raw).isOk = false) ∧
    (∀ (s : Runtime.RuntimeState) (config : Runtime.ScoreboardConfig),
      s.config = some config →
      Runtime.collect_hotkeys s = config.components.flatMap Runtime.componentBindings) ∧
    (∀ (c : Runtime.ComponentConfig) (d : Int) (kb : Runtime.NumberKeybind),
      c.kind = .number d (some kb) →
      Runtime.componentBindings c =
        (kb.increase.map
          (fun k => Runtime.HotkeyBinding.mk k.to_shortcut (.numberIncrease c.id))).toList ++
        (kb.decrease.map
          (fun k => Runtime.HotkeyBinding.mk k.to_shortcut (.numberDecrease c.id))).toList ++
        (kb.reset.map
          (fun k => Runtime.HotkeyBinding.mk k.to_shortcut (.numberReset c.id))).toList) ∧
    (∀ (c : Runtime.ComponentConfig) (d : Int), c.kind = .number d none →
      Runtime.componentBindings c = []) := by
  refine ⟨?_, Runtime.collect_hotkeys_eq_flatMap, ?_, ?_⟩
  · intro global base id raw htype hbad
    apply Config.processComponent_isOk_false global base id raw "number" none
    · rw [htype]; rfl
    · unfold Config.kindOf
      cases hedit : raw.edit.isSome with
      | true => simp [hedit]
      | false =>
        simp only [hedit, Bool.false_eq_true, if_false]
        cases hdef : raw.default.bind Config.TomlValue.asInteger with
        | none => simp
        | some n =>
          simp only []
          rcases hbad with hnone | ⟨binds, hsome, hmiss⟩
          · simp [hnone]
          · simp only [hsome]
            rcases hmiss with hm | hm | hm
            · simp [Config.parse_keybind, hm, except_bind_error]
            · cases hinc : lookupA binds "increase" with
              | none => simp [Config.parse_keybind, hinc, except_bind_error]
              | some spec =>
                simp only [Config.parse_keybind, hinc]
                by_cases hkey : trimS spec.key = ""
                · simp [hkey, except_bind_error]
                · simp [hkey, except_bind_ok, Config.parse_keybind, hm,
                    except_bind_error]
            · cases hinc : lookupA binds "increase" with
              | none => simp [Config.parse_keybind, hinc, except_bind_error]
              | some spec =>
                simp only [Config.parse_keybind, hinc]
                by_cases hkey : trimS spec.key = ""
                · simp [hkey, except_bind_error]
                · cases hdec : lookupA binds "decrease" with
                  | none => simp [hkey, Config.parse_keybind, hdec, except_bind_error,
                      except_bind_ok]
                  | some spec2 =>
                    simp only [hkey, if_false, except_bind_ok, Config.parse_keybind, hdec]
                    by_cases hkey2 : trimS spec2.key = ""
                    · simp [hkey2, except_bind_error]
                    · simp [hkey2, except_bind_ok, hm, except_bind_error]
  · intro c d kb hk
    obtain ⟨inc, dec, res⟩ := kb
    unfold Runtime.componentBindings
    rw [hk]
    cases inc <;> cases dec <;> cases res <;> rfl
  · intro c d hk
    unfold Runtime.componentBindings
    rw [hk]

/-- Claim C2 witness: the compiler half applied to the concrete keybind-less
number component, plus the hotkey table of the demo schema, whose number
component binds only `increase` and `reset` and so contributes exactly those
two pairs. -/
theorem number_keybind_spec_witness :
    (Config.processComponent Config.defaultGlobal "." "score" Config.rawNumberNoKeybind).isOk =
      false ∧
    Runtime.collect_hotkeys Runtime.demoState =
      Runtime.demoConfig.components.flatMap Runtime.componentBindings :=
  ⟨number_keybind_spec.1 Config.defaultGlobal "." "score" Config.rawNumberNoKeybind rfl
      (Or.inl rfl),
    number_keybind_spec.2.1 Runtime.demoState Runtime.demoConfig (by decide)⟩

/-- Claim C2 counterexample: a document whose number component omits the
keybind section does not compile, while the identical component with all three
actions bound does — the keybinds are not optional in the snapshot's
compiler. -/
theorem number_keybind_optional_cex :
    Config.rawNumberNoKeybind.keybind = none ∧
    (Config.load_config_from_entries none "." [("score", Config.rawNumberNoKeybind)]).isOk =
      false ∧
    (Config.load_config_from_entries none "." [("score", Config.rawNumberFullKeybind)]).isOk =
      true := by
  exact ⟨rfl, by decide, by decide⟩

theorem except_ok_of_bind {ε α β : Type} (x : Except ε α) (f : α → Except ε β) (b : β)
    (h : (x >>= f) = .ok b) : ∃ a, x = .ok a ∧ f a = .ok b := by
  cases x with
  | ok a => exact ⟨a, rfl, h⟩
  | error e => rw [except_bind_error] at h; exact absurd h (by simp)

namespace Config

theorem processComponent_id (g : GlobalSettings) (b id : String) (raw : RawComponent)
    (c : ComponentConfig) (h : processComponent g b id raw = .ok c) : c.id = id := by
  unfold processComponent at h
  obtain ⟨font, hf, h⟩ := except_ok_of_bind _ _ _ h
  obtain ⟨u1, h1, h⟩ := except_ok_of_bind _ _ _ h
  obtain ⟨u2, h2, h⟩ := except_ok_of_bind _ _ _ h
  obtain ⟨u3, h3, h⟩ := except_ok_of_bind _ _ _ h
  obtain ⟨ct, hct, h⟩ := except_ok_of_bind _ _ _ h
  obtain ⟨ctype, trounding⟩ := ct
  obtain ⟨kind, hkind, h⟩ := except_ok_of_bind _ _ _ h
  injection h with h
  rw [← h]

theorem processAll_ok_isOk (g : GlobalSettings) (b : String) :
    ∀ (l : List (String × RawComponent)) (r : List ComponentConfig),
      processAll g b l = .ok r →
      ∀ e ∈ l, e.1 = "global" ∨ (processComponent g b e.1 e.2).isOk = true := by
  intro l
  induction l with
  | nil => intro r _ e he; exact absurd he (List.not_mem_nil e)
  | cons x xs ih =>
    intro r h e he
    obtain ⟨id, raw⟩ := x
    unfold processAll at h
    by_cases hx : id = "global"
    · rw [if_pos hx] at h
      rcases List.mem_cons.1 he with rfl | hmem
      · exact Or.inl hx
      · exact ih r h e hmem
    · rw [if_neg hx] at h
      obtain ⟨c, hc, h⟩ := except_ok_of_bind _ _ _ h
      obtain ⟨cs, hcs, h⟩ := except_ok_of_bind _ _ _ h
      rcases List.mem_cons.1 he with rfl | hmem
      · exact Or.inr (by rw [hc]; rfl)
      · exact ih cs hcs e hmem

theorem processAll_ok_eq (g : GlobalSettings) (b : String) :
    ∀ (l : List (String × RawComponent)) (r : List ComponentConfig),
      processAll g b l = .ok r →
      r = (l.filter notGlobal).map (extractComponent g b) := by
  intro l
  induction l with
  | nil =>
    intro r h
    unfold processAll at h
    injection h with h
    rw [← h]
    rfl
  | cons x xs ih =>
    intro r h
    obtain ⟨id, raw⟩ := x
    unfold processAll at h
    by_cases hx : id = "global"
    · rw [if_pos hx] at h
      rw [List.filter_cons, if_neg (by simp [notGlobal, hx])]
      exact ih r h
    · rw [if_neg hx] at h
      obtain ⟨c, hc, h⟩ := except_ok_of_bind _ _ _ h
      obtain ⟨cs, hcs, h⟩ := except_ok_of_bind _ _ _ h
      injection h with h
      rw [List.filter_cons, if_pos (by simp [notGlobal, hx])]
      rw [← h, List.map_cons]
      congr 1
      · unfold extractComponent
        rw [hc]
      · exact ih cs hcs

theorem processAll_ok_of_forall (g : GlobalSettings) (b : String) :
    ∀ l : List (String × RawComponent),
      (∀ e ∈ l, e.1 = "global" ∨ (processComponent g b e.1 e.2).isOk = true) →
      processAll g b l = .ok ((l.filter notGlobal).map (extractComponent g b)) := by
  intro l
  induction l with
  | nil => intro _; rfl
  | cons x xs ih =>
    intro h
    obtain ⟨id, raw⟩ := x
    unfold processAll
    by_cases hx : id = "global"
    · rw [if_pos hx]
      rw [ih (fun e he => h e (List.mem_cons_of_mem _ he))]
      rw [List.filter_cons, if_neg (by simp [notGlobal, hx])]
    · rw [if_neg hx]
      rcases h (id, raw) (List.mem_cons_self _ _) with h1 | h1
      · exact absurd h1 hx
      · cases hc : processComponent g b id raw with
        | error e => rw [hc] at h1; exact absurd h1 (by simp)
        | ok c =>
          rw [except_bind_ok]
          rw [ih (fun e he => h e (List.mem_cons_of_mem _ he)), except_bind_ok]
          rw [List.filter_cons, if_pos (by simp [notGlobal, hx]), List.map_cons]
          have hce : extractComponent g b (id, raw) = c := by
            unfold extractComponent
            rw [hc]
          rw [hce]

theorem pairwise_lt_of_sorted_nodup (L : List ComponentConfig)
    (hs : L.Pairwise (fun a b => a.id ≤ b.id))
    (hnd : (L.map (fun c => c.id)).Nodup) :
    L.Pairwise (fun a b => a.id < b.id) := by
  have hne : L.Pairwise (fun a b => a.id ≠ b.id) := List.pairwise_map.mp hnd
  exact (hs.and hne).imp (fun h => lt_of_le_of_ne h.1 h.2)

/-- Claim C3 (confirmed): over root tables with unique top-level keys (as TOML
guarantees), a successful compile is insensitive to the document order of the
components — any permutation of the entries compiles to the very same
schema — and the resulting component list is always sorted by component id. -/
theorem load_config_deterministic_and_sorted
    (raw_global : Option RawGlobal) (base : String)
    (entries entries' : List (String × RawComponent)) (cfg : ScoreboardConfig)
    (hperm : entries'.Perm entries)
    (hnodup : (entries.map Prod.fst).Nodup)
    (hok : load_config_from_entries raw_global base entries = .ok cfg) :
    load_config_from_entries raw_global base entries' = .ok cfg ∧
    cfg.components.Pairwise (fun a b => a.id ≤ b.id) := by
  unfold load_config_from_entries at hok ⊢
  obtain ⟨g, hg, hok⟩ := except_ok_of_bind _ _ _ hok
  obtain ⟨comps, hcomps, hok⟩ := except_ok_of_bind _ _ _ hok
  injection hok with hok
  have hallok := processAll_ok_isOk g base entries comps hcomps
  have heq := processAll_ok_eq g base entries comps hcomps
  have hallok' : ∀ e ∈ entries', e.1 = "global" ∨
      (processComponent g base e.1 e.2).isOk = true :=
    fun e he => hallok e (hperm.subset he)
  have hok' := processAll_ok_of_forall g base entries' hallok'
  have hpermC : ((entries'.filter notGlobal).map (extractComponent g base)).Perm comps := by
    rw [heq]
    exact (hperm.filter _).map _
  have hids : comps.map (fun c => c.id) = (entries.filter notGlobal).map Prod.fst := by
    rw [heq, List.map_map]
    apply List.map_congr_left
    intro e he
    rcases hallok e (List.mem_of_mem_filter he) with hglob | hok2
    · have hne := List.of_mem_filter he
      simp [notGlobal, hglob] at hne
    · cases hpc : processComponent g base e.1 e.2 with
      | error err => rw [hpc] at hok2; exact absurd hok2 (by simp)
      | ok c =>
        have hce : extractComponent g base e = c := by
          unfold extractComponent
          rw [hpc]
        rw [Function.comp_apply, hce]
        exact processComponent_id g base e.1 e.2 c hpc
  have hndc : (comps.map (fun c => c.id)).Nodup := by
    rw [hids]
    have hsub0 : (entries.filter notGlobal).Sublist entries := List.filter_sublist entries
    exact hnodup.sublist (hsub0.map Prod.fst)
  have hndc' : ((((entries'.filter notGlobal).map (extractComponent g base)).map
      (fun c => c.id))).Nodup := ((hpermC.map (fun c => c.id)).nodup_iff).mpr hndc
  have hsortedA : List.Sorted (fun a b : ComponentConfig => a.id ≤ b.id)
      (comps.insertionSort (fun a b => a.id ≤ b.id)) :=
    List.sorted_insertionSort _ comps
  have hsortedB : List.Sorted (fun a b : ComponentConfig => a.id ≤ b.id)
      (((entries'.filter notGlobal).map (extractComponent g base)).insertionSort
        (fun a b => a.id ≤ b.id)) :=
    List.sorted_insertionSort _ _
  have hfinal : ((entries'.filter notGlobal).map (extractComponent g base)).insertionSort
      (fun a b => a.id ≤ b.id) = comps.insertionSort (fun a b => a.id ≤ b.id) := by
    have hpB := List.perm_insertionSort (fun a b : ComponentConfig => a.id ≤ b.id)
      ((entries'.filter notGlobal).map (extractComponent g base))
    have hpA := List.perm_insertionSort (fun a b : ComponentConfig => a.id ≤ b.id) comps
    apply List.eq_of_perm_of_sorted (r := fun a b : ComponentConfig => a.id < b.id)
    · exact (hpB.trans hpermC).trans hpA.symm
    · refine pairwise_lt_of_sorted_nodup _ hsortedB ?_
      exact ((hpB.map (fun c => c.id)).nodup_iff).mpr hndc'
    · refine pairwise_lt_of_sorted_nodup _ hsortedA ?_
      exact ((hpA.map (fun c => c.id)).nodup_iff).mpr hndc
  constructor
  · rw [hg, except_bind_ok, hok', except_bind_ok, hfinal, hok]
  · rw [← hok]
    exact hsortedA

/-- Claim C3 witness: two concrete two-component documents that differ only in
component order compile to the same id-sorted schema. -/
theorem load_config_deterministic_and_sorted_witness :
    ([("title", rawLabelTitle), ("score", rawNumberFullKeybind)] :
      List (String × RawComponent)).Perm
        [("score", rawNumberFullKeybind), ("title", rawLabelTitle)] ∧
    load_config_from_entries none "."
        [("title", rawLabelTitle), ("score", rawNumberFullKeybind)] =
      load_config_from_entries none "."
        [("score", rawNumberFullKeybind), ("title", rawLabelTitle)] ∧
    (∃ cfg, load_config_from_entries none "."
        [("score", rawNumberFullKeybind), ("title", rawLabelTitle)] = .ok cfg ∧
      cfg.components.Pairwise (fun a b => a.id ≤ b.id)) := by
  have hperm : ([("title", rawLabelTitle), ("score", rawNumberFullKeybind)] :
      List (String × RawComponent)).Perm
        [("score", rawNumberFullKeybind), ("title", rawLabelTitle)] :=
    List.Perm.swap _ _ _
  have hisok : (load_config_from_entries none "."
      [("score", rawNumberFullKeybind), ("title", rawLabelTitle)]).isOk = true := by decide
  cases hok : load_config_from_entries none "."
      [("score", rawNumberFullKeybind), ("title", rawLabelTitle)] with
  | error e =>
    rw [hok] at hisok
    exact absurd hisok (by simp)
  | ok cfg =>
    have h := load_config_deterministic_and_sorted none "."
      [("score", rawNumberFullKeybind), ("title", rawLabelTitle)]
      [("title", rawLabelTitle), ("score", rawNumberFullKeybind)]
      cfg hperm (by decide) hok
    exact ⟨hperm, by rw [h.1], ⟨cfg, rfl, h.2⟩⟩

end Config

end Scoreboard
